import Mathlib

/-!
# Verification of the `PythonServiceManager` process supervisor

Shallow embedding of `python_service_manager.py` (class `PythonServiceManager`).
The supervisor owns at most one worker-process handle (`self.process`), starts
the worker, polls a health endpoint, restarts the worker when it dies or turns
unhealthy, and shuts it down on exit.

The outside world (the OS answering `poll()`, the HTTP stack answering
`requests.get`, `subprocess.Popen`, `Popen.wait`) is modelled by explicit
input records handed to each operation; an execution of the monitor loop is
driven by a stream of per-iteration inputs and a fuel bound.  Python
exceptions that can cross an operation's boundary are modelled with
`Except PyExn`; exceptions that the source catches locally (inside
`check_health` and `start_service`) are modelled as ordinary outcome values.
-/

namespace SvcMgr

/-- A parsed JSON value, the result of `response.json()`.  Object fields model
a Python `dict` produced by the `json` module, so keys are unique. -/
inductive Json where
  | null
  | bool (b : Bool)
  | num (n : Int)
  | str (s : String)
  | arr (elems : List Json)
  | obj (fields : List (String × Json))

/-- Python `data.get('status')`: on a `dict` it returns the value for the key
(or `None`, modelled as the inner `none`); on any non-`dict` value the
attribute lookup `.get` raises `AttributeError`, modelled as `Except.error`. -/
def dictGet (j : Json) (k : String) : Except Unit (Option Json) :=
  match j with
  | Json.obj fields => Except.ok ((fields.find? (fun kv => kv.1 == k)).map Prod.snd)
  | _ => Except.error ()

/-- Outcome of one `requests.get(self.health_endpoint, timeout=5)` call.
`exn` covers every exception raised by the request itself (connection refused,
DNS failure, timeout, ...).  `resp code body` is a received HTTP response whose
`.json()` call either parses (`Except.ok`) or raises (`Except.error`,
malformed payload). -/
inductive HttpOutcome where
  | exn
  | resp (status_code : Nat) (body : Except Unit Json)

/-- The Python comparison `x == 'healthy'` applied to the result of
`data.get('status')`: true exactly when the value is the string `"healthy"`
(`None` and every non-string compare unequal to a `str`). -/
def isHealthyVal : Option Json → Bool
  | some (Json.str t) => t == "healthy"
  | _ => false

/-- `PythonServiceManager.check_health`: true only for an HTTP 200 response
whose JSON body is a dict mapping `"status"` to the string `"healthy"`.
The source wraps everything in `try: ... except Exception: return False`,
so every error path is an ordinary `false` and the function is total. -/
def check_health (o : HttpOutcome) : Bool :=
  match o with
  | HttpOutcome.exn => false
  | HttpOutcome.resp code body =>
    if code == 200 then
      match body with
      | Except.error _ => false
      | Except.ok data =>
        match dictGet data "status" with
        | Except.ok v => isHealthyVal v
        | Except.error _ => false
    else false

/-- Python exceptions that cross an operation boundary in the supervisor:
`KeyboardInterrupt` (not an `Exception` subclass, so `except Exception` does
not catch it) and any other exception. -/
inductive PyExn where
  | keyboardInterrupt
  | other (msg : String)
  deriving DecidableEq, Repr

/-- A `subprocess.Popen` handle: the child's pid and the cached `returncode`
(`none` while the process has not been reaped by `poll`/`wait`). -/
structure Proc where
  pid : Nat
  returncode : Option Int
  deriving DecidableEq, Repr

/-- `Popen.poll()`: if `returncode` is already cached, return it without
consulting the OS; otherwise `os` is the OS's non-blocking answer
(`some rc` = the child exited with code `rc`, `none` = still running),
which is cached when present. -/
def Proc.pollWith (os : Option Int) (p : Proc) : Option Int × Proc :=
  match p.returncode with
  | some rc => (some rc, p)
  | none =>
    match os with
    | some rc => (some rc, { p with returncode := some rc })
    | none => (none, p)

/-- `Popen.send_signal` (used by both `terminate()` and `kill()`): CPython
first polls, then delivers the signal only if `returncode` is still `None`.
Returns the updated handle and whether a signal was actually delivered. -/
def Proc.sendSignal (os : Option Int) (p : Proc) : Proc × Bool :=
  ((p.pollWith os).2, ((p.pollWith os).1).isNone)

/-- `Popen.wait(timeout=...)`: returns immediately if already reaped;
otherwise `os = some rc` means the child exited within the timeout and
`os = none` means the wait timed out, raising `TimeoutExpired`
(modelled as `Except.error`). -/
def Proc.waitTimeout (os : Option Int) (p : Proc) : Except Unit Proc :=
  match p.returncode with
  | some _ => Except.ok p
  | none =>
    match os with
    | some rc => Except.ok { p with returncode := some rc }
    | none => Except.error ()

/-- `Popen.wait()` with no timeout: blocks until the child exits; `rc` is the
exit code the OS eventually reports (ignored if already reaped). -/
def Proc.waitBlock (rc : Int) (p : Proc) : Proc :=
  match p.returncode with
  | some _ => p
  | none => { p with returncode := some rc }

/-- The supervisor's mutable state: `self.process` and `self.running`. -/
structure ManagerState where
  process : Option Proc
  running : Bool
  deriving DecidableEq, Repr

/-- Observable actions of the supervisor, recorded as a trace:
process spawns (with the two `subprocess.PIPE` captures for stdout/stderr),
delivered SIGTERM/SIGKILL signals, entry into `shutdown()`, health probes
(calls of `check_health`), and `time.sleep(n)` calls. -/
inductive Event where
  | spawn (pid : Nat) (stdoutPiped stderrPiped : Bool)
  | sigterm (pid : Nat)
  | sigkill (pid : Nat)
  | shutdownEnter
  | probe
  | sleep (n : Nat)
  deriving DecidableEq, Repr

/-- World inputs consumed by one `start_service` call: the OS answer for the
`self.process.poll()` liveness test, whether `Path(self.service_script)`
exists, and the `subprocess.Popen` outcome (`error` = the spawn raised, which
the source catches; `ok pid` = child created with that pid). -/
structure StartInputs where
  pollOld : Option Int
  scriptExists : Bool
  spawn : Except Unit Nat
  deriving Repr

/-- The `if self.process and self.process.poll() is None: return True` test at
the top of `start_service`: returns whether the owned process is (still)
running, together with the state updated by the poll's `returncode` caching. -/
def startPoll (inp : StartInputs) (s : ManagerState) : Bool × ManagerState :=
  match s.process with
  | some p => (((p.pollWith inp.pollOld).1).isNone, { s with process := some (p.pollWith inp.pollOld).2 })
  | none => (false, s)

/-- `PythonServiceManager.start_service`: idempotent when a live handle
exists; returns false if the launch script is missing or `Popen` raises
(caught by the source's `except Exception`); otherwise replaces
`self.process` with the fresh handle and records the spawn. -/
def start_service (inp : StartInputs) (s : ManagerState) : Bool × ManagerState × List Event :=
  if (startPoll inp s).1 then (true, (startPoll inp s).2, [])
  else if inp.scriptExists then
    match inp.spawn with
    | Except.ok pid =>
      (true, { (startPoll inp s).2 with process := some (Proc.mk pid none) },
        [Event.spawn pid true true])
    | Except.error _ => (false, (startPoll inp s).2, [])
  else (false, (startPoll inp s).2, [])

/-- Default `max_wait` of `wait_for_startup` (the source's `max_wait=30`);
both `monitor_service` and `run` call `wait_for_startup()` with this default. -/
def default_max_wait : Nat := 30

/-- World inputs for one second of `wait_for_startup`'s polling loop: the
health-probe outcome, whether the `self.process.poll()` call raises (and the
OS answer when it does not), and whether `time.sleep(1)` raises.  The source
catches nothing here, so a raise propagates to the caller. -/
structure ProbeInput where
  health : HttpOutcome
  pollExn : Option PyExn
  pollOS : Option Int
  sleepExn : Option PyExn

/-- The `for i in range(max_wait)` loop of `wait_for_startup`, with `n`
iterations left and `i` the current index into the input stream.  Per
iteration: probe health (return true when healthy), then a non-blocking poll
(return false at once if the process has already exited), then sleep one
second; returning false when the attempts are exhausted. -/
def waitLoop (inputs : Nat → ProbeInput) :
    Nat → Nat → ManagerState → Except PyExn Bool × ManagerState × List Event
  | 0, _, s => (Except.ok false, s, [])
  | n + 1, i, s =>
    if check_health (inputs i).health then (Except.ok true, s, [Event.probe])
    else
      match s.process, (inputs i).pollExn with
      | some _, some e => (Except.error e, s, [Event.probe])
      | some p, none =>
        if ((p.pollWith (inputs i).pollOS).1).isSome then
          (Except.ok false, { s with process := some (p.pollWith (inputs i).pollOS).2 },
            [Event.probe])
        else
          match (inputs i).sleepExn with
          | some e =>
            (Except.error e, { s with process := some (p.pollWith (inputs i).pollOS).2 },
              [Event.probe])
          | none =>
            let r := waitLoop inputs n (i + 1)
              { s with process := some (p.pollWith (inputs i).pollOS).2 }
            (r.1, r.2.1, Event.probe :: Event.sleep 1 :: r.2.2)
      | none, _ =>
        match (inputs i).sleepExn with
        | some e => (Except.error e, s, [Event.probe])
        | none =>
          let r := waitLoop inputs n (i + 1) s
          (r.1, r.2.1, Event.probe :: Event.sleep 1 :: r.2.2)

/-- `PythonServiceManager.wait_for_startup(max_wait)`. -/
def wait_for_startup (max_wait : Nat) (inputs : Nat → ProbeInput) (s : ManagerState) :
    Except PyExn Bool × ManagerState × List Event :=
  waitLoop inputs max_wait 0 s

/-- World inputs consumed by one iteration of the monitor loop: whether the
initial `self.process.poll()` raises and the OS answer when it does not, the
health-probe outcome for the `elif not self.check_health()` test, the OS
answer for the `terminate()` of an unhealthy worker, the inputs of the
restart's `start_service` and `wait_for_startup`, and whether the trailing
`time.sleep(10)` raises. -/
structure IterInputs where
  pollExn : Option PyExn
  pollOS : Option Int
  health : HttpOutcome
  termOS : Option Int
  restart : StartInputs
  startup : Nat → ProbeInput
  sleep10Exn : Option PyExn

/-- The `if self.process and self.process.poll() is not None` test opening a
monitor iteration.  `ok (none, _)`: no process is owned (the conjunction
short-circuits, no poll happens).  `ok (some r, _)`: the owned process was
polled with answer `r`.  `error e`: the poll call raised. -/
def iterPoll (inp : IterInputs) (s : ManagerState) :
    Except PyExn (Option (Option Int) × ManagerState) :=
  match s.process with
  | none => Except.ok (none, s)
  | some p =>
    match inp.pollExn with
    | some e => Except.error e
    | none =>
      Except.ok (some (p.pollWith inp.pollOS).1, { s with process := some (p.pollWith inp.pollOS).2 })

/-- The restart sequence shared by the two monitor branches:
`self.start_service()` (its boolean result is ignored by the source) followed
by `self.wait_for_startup()`. -/
def iterRestart (inp : IterInputs) (s : ManagerState) :
    Except PyExn Bool × ManagerState × List Event :=
  ((wait_for_startup default_max_wait inp.startup (start_service inp.restart s).2.1).1,
    (wait_for_startup default_max_wait inp.startup (start_service inp.restart s).2.1).2.1,
    (start_service inp.restart s).2.2 ++
      (wait_for_startup default_max_wait inp.startup (start_service inp.restart s).2.1).2.2)

/-- The `time.sleep(10)` ending a completed monitor iteration; `ok true`
means the iteration finished and the loop goes round again. -/
def iterSleep10 (inp : IterInputs) (s : ManagerState) (ev : List Event) :
    Except PyExn Bool × ManagerState × List Event :=
  match inp.sleep10Exn with
  | some e => (Except.error e, s, ev)
  | none => (Except.ok true, s, ev ++ [Event.sleep 10])

/-- The `if not self.wait_for_startup(): break` decision after a restart,
prefixed with the events `pre` the branch produced before restarting: a
raised exception or a failed wait ends the iteration with that outcome, a
successful wait falls through to the iteration's trailing `time.sleep(10)`. -/
def iterRestartOutcome (inp : IterInputs) (s : ManagerState) (pre : List Event) :
    Except PyExn Bool × ManagerState × List Event :=
  match (iterRestart inp s).1 with
  | Except.error e => (Except.error e, (iterRestart inp s).2.1, pre ++ (iterRestart inp s).2.2)
  | Except.ok false => (Except.ok false, (iterRestart inp s).2.1, pre ++ (iterRestart inp s).2.2)
  | Except.ok true => iterSleep10 inp (iterRestart inp s).2.1 (pre ++ (iterRestart inp s).2.2)

/-- The body of one monitor-loop iteration (the contents of the source's
`try:` block).  `ok true` = iteration completed, keep looping; `ok false` =
a restart's `wait_for_startup` failed, `break`; `error e` = an exception
escaped the body and reaches the loop's handlers. -/
def iterBody (inp : IterInputs) (s : ManagerState) :
    Except PyExn Bool × ManagerState × List Event :=
  match iterPoll inp s with
  | Except.error e => (Except.error e, s, [])
  | Except.ok (pr, s1) =>
    match pr with
    | some (some _) =>
      -- the process died: restart it
      iterRestartOutcome inp s1 []
    | _ =>
      if check_health inp.health then iterSleep10 inp s1 [Event.probe]
      else
        -- unhealthy but alive: `terminate()` + `time.sleep(2)` when a handle
        -- exists, then restart
        match s1.process with
        | some p =>
          iterRestartOutcome inp { s1 with process := some (p.sendSignal inp.termOS).1 }
            (Event.probe ::
              ((if (p.sendSignal inp.termOS).2 then [Event.sigterm p.pid] else []) ++
                [Event.sleep 2]))
        | none => iterRestartOutcome inp s1 [Event.probe]

/-- `PythonServiceManager.monitor_service`, fuel-bounded: `while self.running`
runs iterations; `except KeyboardInterrupt: break`; `except Exception:` log,
`time.sleep(5)` and keep looping.  Nothing inside the loop flips `running`,
so termination within the model comes from `break` or from the fuel. -/
def monitor_service : Nat → (Nat → IterInputs) → ManagerState → ManagerState × List Event
  | 0, _, s => (s, [])
  | fuel + 1, inputs, s =>
    if s.running then
      match iterBody (inputs 0) s with
      | (Except.ok true, s1, ev) =>
        let r := monitor_service fuel (fun n => inputs (n + 1)) s1
        (r.1, ev ++ r.2)
      | (Except.ok false, s1, ev) => (s1, ev)
      | (Except.error PyExn.keyboardInterrupt, s1, ev) => (s1, ev)
      | (Except.error (PyExn.other _), s1, ev) =>
        let r := monitor_service fuel (fun n => inputs (n + 1)) s1
        (r.1, ev ++ Event.sleep 5 :: r.2)
    else (s, [])

/-- World inputs consumed by one `shutdown()` call: the OS poll answers seen
by `terminate()`, by `wait(timeout=10)` (`none` = `TimeoutExpired`), and by
`kill()`, plus the exit code reported by the final blocking `wait()`. -/
structure ShutdownInputs where
  termOS : Option Int
  waitOS : Option Int
  killOS : Option Int
  waitFinal : Int
  deriving Repr

/-- `PythonServiceManager.shutdown`: set `running = False`; if a handle
exists, `terminate()`, `wait(timeout=10)`, and on timeout `kill()` followed
by a blocking `wait()`. -/
def shutdown (inp : ShutdownInputs) (s : ManagerState) : ManagerState × List Event :=
  match s.process with
  | none => ({ s with running := false }, [Event.shutdownEnter])
  | some p =>
    match (p.sendSignal inp.termOS).1.waitTimeout inp.waitOS with
    | Except.ok p2 =>
      ({ s with
          running := false
          process := some p2 },
        Event.shutdownEnter ::
          (if (p.sendSignal inp.termOS).2 then [Event.sigterm p.pid] else []))
    | Except.error _ =>
      ({ s with
          running := false
          process := some ((((p.sendSignal inp.termOS).1.sendSignal inp.killOS).1).waitBlock
            inp.waitFinal) },
        Event.shutdownEnter ::
          ((if (p.sendSignal inp.termOS).2 then [Event.sigterm p.pid] else []) ++
            (if ((p.sendSignal inp.termOS).1.sendSignal inp.killOS).2 then
              [Event.sigkill p.pid] else [])))

/-- World inputs for one `run()` call: inputs of the initial `start_service`
and `wait_for_startup`, the monitor loop's fuel and per-iteration inputs, and
the inputs of the final `shutdown()` (executed by the `finally:` once per
`run`). -/
structure RunInputs where
  start : StartInputs
  startup : Nat → ProbeInput
  monitorFuel : Nat
  monitor : Nat → IterInputs
  shutdownIn : ShutdownInputs

/-- The initial `self.start_service()` of `run`, after `self.running = True`. -/
def startPhase (inp : RunInputs) (s : ManagerState) : Bool × ManagerState × List Event :=
  start_service inp.start { s with running := true }

/-- The initial `self.wait_for_startup()` of `run`. -/
def waitPhase (inp : RunInputs) (s : ManagerState) :
    Except PyExn Bool × ManagerState × List Event :=
  wait_for_startup default_max_wait inp.startup (startPhase inp s).2.1

/-- `PythonServiceManager.run`: `try:` start, wait for startup (each failure
returns `False` before monitoring), monitor; `except Exception:` log (the
caught run still falls through to `return True`); `finally: self.shutdown()`
on every exit path, including the early `return False`s and an uncaught
`KeyboardInterrupt`.  Signal handlers are installed but never fire in this
single-threaded model. -/
def run (inp : RunInputs) (s : ManagerState) : Except PyExn Bool × ManagerState × List Event :=
  if (startPhase inp s).1 then
    match (waitPhase inp s).1 with
    | Except.ok true =>
      (Except.ok true,
        (shutdown inp.shutdownIn (monitor_service inp.monitorFuel inp.monitor (waitPhase inp s).2.1).1).1,
        (startPhase inp s).2.2 ++ (waitPhase inp s).2.2 ++
          (monitor_service inp.monitorFuel inp.monitor (waitPhase inp s).2.1).2 ++
          (shutdown inp.shutdownIn (monitor_service inp.monitorFuel inp.monitor (waitPhase inp s).2.1).1).2)
    | Except.ok false =>
      (Except.ok false, (shutdown inp.shutdownIn (waitPhase inp s).2.1).1,
        (startPhase inp s).2.2 ++ (waitPhase inp s).2.2 ++
          (shutdown inp.shutdownIn (waitPhase inp s).2.1).2)
    | Except.error PyExn.keyboardInterrupt =>
      -- not an `Exception`: the `finally` runs, then the interrupt propagates
      (Except.error PyExn.keyboardInterrupt, (shutdown inp.shutdownIn (waitPhase inp s).2.1).1,
        (startPhase inp s).2.2 ++ (waitPhase inp s).2.2 ++
          (shutdown inp.shutdownIn (waitPhase inp s).2.1).2)
    | Except.error (PyExn.other _) =>
      -- caught by `except Exception`, logged; control reaches `return True`
      (Except.ok true, (shutdown inp.shutdownIn (waitPhase inp s).2.1).1,
        (startPhase inp s).2.2 ++ (waitPhase inp s).2.2 ++
          (shutdown inp.shutdownIn (waitPhase inp s).2.1).2)
  else
    (Except.ok false, (shutdown inp.shutdownIn (startPhase inp s).2.1).1,
      (startPhase inp s).2.2 ++ (shutdown inp.shutdownIn (startPhase inp s).2.1).2)

/-- The `__main__` block: `sys.exit(0 if manager.run() else 1)`.  When `run`
itself raises (an uncaught `KeyboardInterrupt`), `sys.exit` is never reached
and the interpreter terminates with a nonzero status, modelled as 1. -/
def mainExitCode (inp : RunInputs) (s : ManagerState) : Nat :=
  match (run inp s).1 with
  | Except.ok true => 0
  | Except.ok false => 1
  | Except.error _ => 1

/-! ## Specification-side vocabulary and concrete fixtures -/

/-- The event trace of `k` completed (probe, sleep one second) rounds of
`wait_for_startup`'s loop. -/
def probeSleepTrace : Nat → List Event
  | 0 => []
  | k + 1 => Event.probe :: Event.sleep 1 :: probeSleepTrace k

/-- The owned handle, if any, has not been reaped (`returncode` not cached). -/
def processQuiet (s : ManagerState) : Prop :=
  ∀ p, s.process = some p → p.returncode = none

/-- Second `j` of a startup wait passes uneventfully: the probe is unhealthy,
no call raises, and the OS reports the process still running. -/
def quietProbe (inputs : Nat → ProbeInput) (j : Nat) : Prop :=
  check_health (inputs j).health = false ∧ (inputs j).pollExn = none ∧
    (inputs j).pollOS = none ∧ (inputs j).sleepExn = none

/-- A probe answered by HTTP 200 with body `{"status": "healthy"}`. -/
def healthyProbe : ProbeInput :=
  ⟨HttpOutcome.resp 200 (Except.ok (Json.obj [("status", Json.str "healthy")])), none, none, none⟩

/-- A probe whose request raises (connection refused); nothing else happens. -/
def badProbe : ProbeInput := ⟨HttpOutcome.exn, none, none, none⟩

/-- Monitor-iteration inputs realizing a failed restart: the OS reports the
worker (pid 7) exited with code 1, the relaunch fails because the script is
missing, and the restart's startup wait sees only dead polls and failed
probes. -/
def exhaustIter : IterInputs :=
  ⟨none, some 1, HttpOutcome.exn, none, ⟨none, false, Except.error ()⟩, fun _ => badProbe, none⟩

/-- A complete `run()` scenario: launch succeeds (pid 7), the first startup
probe is healthy, then the single monitor iteration hits `exhaustIter`
(worker dead, restart fails), and the final `shutdown` finds the reaped
process. -/
def exhaustRun : RunInputs :=
  ⟨⟨none, true, Except.ok 7⟩, fun _ => healthyProbe, 1, fun _ => exhaustIter,
    ⟨none, none, none, 0⟩⟩

/-- A `run()` scenario whose launch fails outright: the service script is
missing, so `start_service` returns false before any process exists. -/
def launchFailRun : RunInputs :=
  ⟨⟨none, false, Except.error ()⟩, fun _ => badProbe, 0, fun _ => exhaustIter,
    ⟨none, none, none, 0⟩⟩

/-! ## Helper lemmas -/

theorem isHealthyVal_eq_true (v : Option Json) :
    isHealthyVal v = true ↔ v = some (Json.str "healthy") := by
  cases v with
  | none => simp [isHealthyVal]
  | some j => cases j <;> simp [isHealthyVal]

theorem pollWith_isNone (p : Proc) (os : Option Int)
    (h : ((p.pollWith os).1).isNone = true) : p.pollWith os = (none, p) := by
  cases hr : p.returncode with
  | some rc => simp [Proc.pollWith, hr] at h
  | none =>
    cases ho : os with
    | some rc => simp [Proc.pollWith, hr, ho] at h
    | none => simp [Proc.pollWith, hr, ho]

theorem startPoll_true_state (inp : StartInputs) (s : ManagerState)
    (h : (startPoll inp s).1 = true) : (startPoll inp s).2 = s := by
  cases hs : s.process with
  | none => simp [startPoll, hs]
  | some p =>
    simp only [startPoll, hs] at h ⊢
    rw [pollWith_isNone p inp.pollOld h]
    cases s
    simp only [ManagerState.mk.injEq, and_true]
    simpa using hs.symm

theorem waitTimeout_ok_reaped (os : Option Int) (p q : Proc)
    (h : p.waitTimeout os = Except.ok q) : ∃ rc, q.returncode = some rc := by
  cases hr : p.returncode with
  | some rc =>
    simp [Proc.waitTimeout, hr] at h
    exact ⟨rc, h ▸ hr⟩
  | none =>
    cases ho : os with
    | some rc =>
      simp [Proc.waitTimeout, hr, ho] at h
      exact ⟨rc, by rw [← h]⟩
    | none => simp [Proc.waitTimeout, hr, ho] at h

theorem waitTimeout_error_iff (os : Option Int) (p : Proc) (u : Unit)
    (h : p.waitTimeout os = Except.error u) : p.returncode = none ∧ os = none := by
  cases hr : p.returncode with
  | some rc => simp [Proc.waitTimeout, hr] at h
  | none =>
    cases ho : os with
    | some rc => simp [Proc.waitTimeout, hr, ho] at h
    | none => exact ⟨rfl, rfl⟩

theorem waitBlock_reaped (rc : Int) (p : Proc) :
    ∃ rc', (p.waitBlock rc).returncode = some rc' := by
  cases hr : p.returncode with
  | some rc0 => exact ⟨rc0, by simp [Proc.waitBlock, hr]⟩
  | none => exact ⟨rc, by simp [Proc.waitBlock, hr]⟩

theorem sendSignal_reaped (os : Option Int) (p : Proc) (rc : Int)
    (h : p.returncode = some rc) : p.sendSignal os = (p, false) := by
  simp [Proc.sendSignal, Proc.pollWith, h]

theorem shutdown_running_false (i : ShutdownInputs) (s : ManagerState) :
    (shutdown i s).1.running = false := by
  cases hs : s.process with
  | none => simp [shutdown, hs]
  | some p =>
    cases hw : (p.sendSignal i.termOS).1.waitTimeout i.waitOS <;> simp [shutdown, hs, hw]

theorem shutdown_process_reaped (i : ShutdownInputs) (s : ManagerState) :
    ∀ q, (shutdown i s).1.process = some q → ∃ rc, q.returncode = some rc := by
  intro q hq
  cases hs : s.process with
  | none => simp [shutdown, hs] at hq
  | some p =>
    cases hw : (p.sendSignal i.termOS).1.waitTimeout i.waitOS with
    | ok p2 =>
      simp [shutdown, hs, hw] at hq
      exact hq ▸ waitTimeout_ok_reaped _ _ _ hw
    | error u =>
      simp [shutdown, hs, hw] at hq
      exact hq ▸ waitBlock_reaped _ _

theorem shutdown_on_settled (i : ShutdownInputs) (t : ManagerState)
    (hrun : t.running = false)
    (hproc : ∀ q, t.process = some q → ∃ rc, q.returncode = some rc) :
    shutdown i t = (t, [Event.shutdownEnter]) := by
  cases ht : t.process with
  | none =>
    obtain ⟨pr, rn⟩ := t
    simp only at ht hrun
    subst ht hrun
    simp [shutdown]
  | some q =>
    obtain ⟨rc, hrc⟩ := hproc q ht
    have hsig : q.sendSignal i.termOS = (q, false) := sendSignal_reaped _ _ _ hrc
    have hw : q.waitTimeout i.waitOS = Except.ok q := by simp [Proc.waitTimeout, hrc]
    obtain ⟨pr, rn⟩ := t
    simp only at ht hrun
    subst ht hrun
    simp [shutdown, hsig, hw]

theorem managerState_eta (s : ManagerState) (p : Proc) (hp : s.process = some p) :
    ({ s with process := some p } : ManagerState) = s := by
  obtain ⟨pr, rn⟩ := s
  simp only at hp
  subst hp
  rfl

theorem waitLoop_step (inputs : Nat → ProbeInput) (n i : Nat) (s : ManagerState)
    (hs : processQuiet s) (hq : quietProbe inputs i) :
    waitLoop inputs (n + 1) i s =
      ((waitLoop inputs n (i + 1) s).1, (waitLoop inputs n (i + 1) s).2.1,
        Event.probe :: Event.sleep 1 :: (waitLoop inputs n (i + 1) s).2.2) := by
  obtain ⟨hu, hpe, hpo, hse⟩ := hq
  cases hp : s.process with
  | none => simp [waitLoop, hu, hse, hp]
  | some p =>
    have hr : p.returncode = none := hs p hp
    have hpw : p.pollWith (inputs i).pollOS = (none, p) := by
      simp [Proc.pollWith, hr, hpo]
    simp [waitLoop, hu, hpe, hse, hp, hpw, managerState_eta s p hp]

theorem waitLoop_first_healthy (inputs : Nat → ProbeInput) :
    ∀ k n i s, k < n → processQuiet s →
      (∀ j, j < k → quietProbe inputs (i + j)) →
      check_health (inputs (i + k)).health = true →
      (waitLoop inputs n i s).1 = Except.ok true ∧
        (waitLoop inputs n i s).2.2 = probeSleepTrace k ++ [Event.probe] := by
  intro k
  induction k with
  | zero =>
    intro n i s hk hs hq hh
    cases n with
    | zero => omega
    | succ m =>
      rw [Nat.add_zero] at hh
      simp [waitLoop, hh, probeSleepTrace]
  | succ k ih =>
    intro n i s hk hs hq hh
    cases n with
    | zero => omega
    | succ m =>
      have hq0 : quietProbe inputs i := by simpa using hq 0 (Nat.succ_pos k)
      rw [waitLoop_step inputs m i s hs hq0]
      have hq' : ∀ j, j < k → quietProbe inputs (i + 1 + j) := by
        intro j hj
        have := hq (j + 1) (by omega)
        rwa [show i + (j + 1) = i + 1 + j by omega] at this
      have hh' : check_health (inputs (i + 1 + k)).health = true := by
        rwa [show i + (k + 1) = i + 1 + k by omega] at hh
      obtain ⟨h1, h2⟩ := ih m (i + 1) s (by omega) hs hq' hh'
      simp [probeSleepTrace, h1, h2]

theorem waitLoop_dead_exit (inputs : Nat → ProbeInput) :
    ∀ k n i s p rc, k < n → s.process = some p → p.returncode = none →
      (∀ j, j < k → quietProbe inputs (i + j)) →
      check_health (inputs (i + k)).health = false →
      (inputs (i + k)).pollExn = none →
      (inputs (i + k)).pollOS = some rc →
      (waitLoop inputs n i s).1 = Except.ok false ∧
        (waitLoop inputs n i s).2.2 = probeSleepTrace k ++ [Event.probe] := by
  intro k
  induction k with
  | zero =>
    intro n i s p rc hk hp hr hq hu hpe hpo
    cases n with
    | zero => omega
    | succ m =>
      rw [Nat.add_zero] at hu hpe hpo
      have hpw : p.pollWith (inputs i).pollOS =
          (some rc, { p with returncode := some rc }) := by
        simp [Proc.pollWith, hr, hpo]
      simp [waitLoop, hu, hp, hpe, hpw, probeSleepTrace]
  | succ k ih =>
    intro n i s p rc hk hp hr hq hu hpe hpo
    cases n with
    | zero => omega
    | succ m =>
      have hs : processQuiet s := by
        intro q hql
        rw [hp] at hql
        exact (Option.some.inj hql) ▸ hr
      have hq0 : quietProbe inputs i := by simpa using hq 0 (Nat.succ_pos k)
      rw [waitLoop_step inputs m i s hs hq0]
      have hq' : ∀ j, j < k → quietProbe inputs (i + 1 + j) := by
        intro j hj
        have := hq (j + 1) (by omega)
        rwa [show i + (j + 1) = i + 1 + j by omega] at this
      have hsh : i + (k + 1) = i + 1 + k := by omega
      rw [hsh] at hu hpe hpo
      obtain ⟨h1, h2⟩ := ih m (i + 1) s p rc (by omega) hp hr hq' hu hpe hpo
      simp [probeSleepTrace, h1, h2]

theorem waitLoop_exhausted (inputs : Nat → ProbeInput) :
    ∀ n i s, processQuiet s → (∀ j, j < n → quietProbe inputs (i + j)) →
      (waitLoop inputs n i s).1 = Except.ok false ∧
        (waitLoop inputs n i s).2.2 = probeSleepTrace n := by
  intro n
  induction n with
  | zero => intro i s hs hq; simp [waitLoop, probeSleepTrace]
  | succ m ih =>
    intro i s hs hq
    have hq0 : quietProbe inputs i := by simpa using hq 0 (Nat.succ_pos m)
    rw [waitLoop_step inputs m i s hs hq0]
    have hq' : ∀ j, j < m → quietProbe inputs (i + 1 + j) := by
      intro j hj
      have := hq (j + 1) (by omega)
      rwa [show i + (j + 1) = i + 1 + j by omega] at this
    obtain ⟨h1, h2⟩ := ih (i + 1) s hs hq'
    simp [probeSleepTrace, h1, h2]

theorem start_service_no_se (inp : StartInputs) (s : ManagerState) :
    Event.shutdownEnter ∉ (start_service inp s).2.2 := by
  by_cases h1 : (startPoll inp s).1
  · simp [start_service, h1]
  · by_cases h2 : inp.scriptExists
    · cases h3 : inp.spawn <;> simp [start_service, h1, h2, h3]
    · simp [start_service, h1, h2]

theorem waitLoop_no_se (inputs : Nat → ProbeInput) :
    ∀ n i s, Event.shutdownEnter ∉ (waitLoop inputs n i s).2.2 := by
  intro n
  induction n with
  | zero => intro i s; simp [waitLoop]
  | succ m ih =>
    intro i s
    unfold waitLoop
    split
    · simp
    · split
      · simp
      · split
        · simp
        · split
          · simp
          · simp [ih]
      · split
        · simp
        · simp [ih]

theorem wait_for_startup_no_se (mw : Nat) (inputs : Nat → ProbeInput) (s : ManagerState) :
    Event.shutdownEnter ∉ (wait_for_startup mw inputs s).2.2 :=
  waitLoop_no_se inputs mw 0 s

theorem iterRestart_no_se (inp : IterInputs) (s : ManagerState) :
    Event.shutdownEnter ∉ (iterRestart inp s).2.2 := by
  simp only [iterRestart, List.mem_append]
  rintro (h | h)
  · exact start_service_no_se _ _ h
  · exact wait_for_startup_no_se _ _ _ h

theorem iterSleep10_no_se (inp : IterInputs) (s : ManagerState) (ev : List Event)
    (h : Event.shutdownEnter ∉ ev) :
    Event.shutdownEnter ∉ (iterSleep10 inp s ev).2.2 := by
  cases he : inp.sleep10Exn <;> simp [iterSleep10, he, h]

theorem iterRestartOutcome_no_se (inp : IterInputs) (s : ManagerState) (pre : List Event)
    (h : Event.shutdownEnter ∉ pre) :
    Event.shutdownEnter ∉ (iterRestartOutcome inp s pre).2.2 := by
  cases hr : (iterRestart inp s).1 with
  | error e => simp [iterRestartOutcome, hr, h, iterRestart_no_se inp s]
  | ok b =>
    cases b
    · simp [iterRestartOutcome, hr, h, iterRestart_no_se inp s]
    · simp only [iterRestartOutcome, hr]
      exact iterSleep10_no_se _ _ _ (by simp [h, iterRestart_no_se inp s])

theorem iterBody_no_se (inp : IterInputs) (s : ManagerState) :
    Event.shutdownEnter ∉ (iterBody inp s).2.2 := by
  unfold iterBody
  cases hpoll : iterPoll inp s with
  | error e => simp
  | ok x =>
    obtain ⟨pr, s1⟩ := x
    have helse : Event.shutdownEnter ∉
        ((if check_health inp.health then iterSleep10 inp s1 [Event.probe]
          else
            match s1.process with
            | some p =>
              iterRestartOutcome inp { s1 with process := some (p.sendSignal inp.termOS).1 }
                (Event.probe ::
                  ((if (p.sendSignal inp.termOS).2 then [Event.sigterm p.pid] else []) ++
                    [Event.sleep 2]))
            | none => iterRestartOutcome inp s1 [Event.probe])).2.2 := by
      by_cases hc : check_health inp.health
      · simp only [hc, if_true]
        exact iterSleep10_no_se _ _ _ (by simp)
      · simp only [hc, if_false, Bool.false_eq_true]
        cases hp1 : s1.process with
        | some p =>
          exact iterRestartOutcome_no_se _ _ _ (by split <;> simp)
        | none => exact iterRestartOutcome_no_se _ _ _ (by simp)
    cases pr with
    | none => exact helse
    | some r =>
      cases r with
      | none => exact helse
      | some rc => exact iterRestartOutcome_no_se _ _ _ (by simp)

theorem monitor_no_se :
    ∀ fuel inputs s, Event.shutdownEnter ∉ (monitor_service fuel inputs s).2 := by
  intro fuel
  induction fuel with
  | zero => intro inputs s; simp [monitor_service]
  | succ m ih =>
    intro inputs s
    by_cases hr : s.running
    · rcases hb : iterBody (inputs 0) s with ⟨r, s1, ev⟩
      have hev : Event.shutdownEnter ∉ ev := by
        have := iterBody_no_se (inputs 0) s
        rw [hb] at this
        exact this
      cases r with
      | ok b => cases b <;> simp [monitor_service, hr, hb, hev, ih]
      | error e => cases e <;> simp [monitor_service, hr, hb, hev, ih]
    · simp [monitor_service, hr]

theorem shutdown_count_se (i : ShutdownInputs) (s : ManagerState) :
    ((shutdown i s).2).count Event.shutdownEnter = 1 := by
  cases hs : s.process with
  | none => simp [shutdown, hs]
  | some p =>
    cases hw : (p.sendSignal i.termOS).1.waitTimeout i.waitOS with
    | ok p2 =>
      simp only [shutdown, hs, hw]
      split <;> simp [List.count_cons]
    | error u =>
      simp only [shutdown, hs, hw]
      split <;> split <;> simp [List.count_cons, List.count_append]

/-! ## Claims -/

/-- C3: `check_health` returns true iff the HTTP request yields status code
200 and a JSON object whose `"status"` field is exactly the string
`"healthy"`; every other outcome (request exception, non-200 code, malformed
body, non-object body, missing or different status value) gives false, and
the function is total, so no exception reaches the caller. -/
theorem check_health_true_iff (o : HttpOutcome) :
    check_health o = true ↔
      ∃ fields, o = HttpOutcome.resp 200 (Except.ok (Json.obj fields)) ∧
        (fields.find? (fun kv => kv.1 == "status")).map Prod.snd =
          some (Json.str "healthy") := by
  cases o with
  | exn => simp [check_health]
  | resp code body =>
    by_cases hc : code = 200
    · subst hc
      cases body with
      | error u => simp [check_health]
      | ok data =>
        cases data <;> simp [check_health, dictGet, isHealthyVal_eq_true]
    · cases body <;> simp [check_health, hc, Nat.beq_eq]

/-- C10: an HTTP 200 response whose JSON body is not an object carrying
`"status" : "healthy"` — a non-object value, or an object without the key, or
with a different value — makes `check_health` return false instead of raising
a lookup error. -/
theorem check_health_missing_status_false (j : Json)
    (h : ∀ fields, j = Json.obj fields →
      (fields.find? (fun kv => kv.1 == "status")).map Prod.snd ≠ some (Json.str "healthy")) :
    check_health (HttpOutcome.resp 200 (Except.ok j)) = false := by
  cases hj : j <;> simp [check_health, dictGet]
  case obj fields =>
    have := h fields hj
    rw [← Bool.not_eq_true]
    simpa [isHealthyVal_eq_true] using this

/-- Witness for C10 at the concrete body `null` (a non-object JSON value). -/
theorem check_health_missing_status_false_witness :
    check_health (HttpOutcome.resp 200 (Except.ok Json.null)) = false :=
  check_health_missing_status_false Json.null (fun _ h => Json.noConfusion h)

/-- C1: whenever `start_service` actually spawns a new worker (a spawn event
appears in its trace), the previously owned handle was either absent or its
poll — cached `returncode` or fresh OS answer — reported the process exited;
and since the supervisor's ownership is the single field `self.process`, any
monitor execution ends owning at most one handle.  Hence at most one live
worker is owned at any time. -/
theorem spawn_only_after_old_dead (inp : StartInputs) (s : ManagerState)
    (pid : Nat) (a b : Bool)
    (h : Event.spawn pid a b ∈ (start_service inp s).2.2) :
    (s.process = none ∨
      ∃ p rc, s.process = some p ∧ (p.pollWith inp.pollOld).1 = some rc) ∧
    ∀ fuel inputs t, ((monitor_service fuel inputs t).1.process).toList.length ≤ 1 := by
  constructor
  · by_cases h1 : (startPoll inp s).1
    · simp [start_service, h1] at h
    · cases hs : s.process with
      | none => exact Or.inl rfl
      | some p =>
        refine Or.inr ⟨p, ?_⟩
        simp only [startPoll, hs, Bool.not_eq_true] at h1
        rcases ho : (p.pollWith inp.pollOld).1 with _ | rc
        · rw [ho] at h1; simp at h1
        · exact ⟨rc, rfl, rfl⟩
  · intro fuel inputs t
    cases ((monitor_service fuel inputs t).1.process) <;> simp [Option.toList]

/-- Witness for C1: a spawn out of the state owning the already-reaped
pid 5 handle (the poll reports exit code 0). -/
theorem spawn_only_after_old_dead_witness :
    (((⟨some ⟨5, some 0⟩, false⟩ : ManagerState).process = none ∨
      ∃ p rc, (⟨some ⟨5, some 0⟩, false⟩ : ManagerState).process = some p ∧
        (p.pollWith none).1 = some rc) ∧
    ∀ fuel inputs t, ((monitor_service fuel inputs t).1.process).toList.length ≤ 1) :=
  spawn_only_after_old_dead ⟨none, true, Except.ok 42⟩ ⟨some ⟨5, some 0⟩, false⟩
    42 true true (by decide)

/-- C8: `start_service` (a) returns true at once, with no spawn and the state
unchanged, when the owned process is still running; (b) returns false, raising
nothing, when the launch script is missing; (c) returns false, raising
nothing, when `Popen` raises; (d) otherwise spawns the worker with piped
stdout/stderr and returns true. -/
theorem start_service_cases (inp : StartInputs) (s : ManagerState) :
    ((startPoll inp s).1 = true → start_service inp s = (true, s, [])) ∧
    ((startPoll inp s).1 = false → inp.scriptExists = false →
      start_service inp s = (false, (startPoll inp s).2, [])) ∧
    ((startPoll inp s).1 = false → inp.scriptExists = true →
      inp.spawn = Except.error () →
      start_service inp s = (false, (startPoll inp s).2, [])) ∧
    (∀ pid, (startPoll inp s).1 = false → inp.scriptExists = true →
      inp.spawn = Except.ok pid →
      start_service inp s =
        (true, { (startPoll inp s).2 with process := some ⟨pid, none⟩ },
          [Event.spawn pid true true])) := by
  refine ⟨fun h1 => ?_, fun h1 h2 => ?_, fun h1 h2 h3 => ?_, fun pid h1 h2 h3 => ?_⟩
  · simp [start_service, h1, startPoll_true_state inp s h1]
  · simp [start_service, h1, h2]
  · simp [start_service, h1, h2, h3]
  · simp [start_service, h1, h2, h3]

/-- Witness for C8, case (d): from an empty state with the script present,
`start_service` spawns pid 11 with both streams captured and returns true. -/
theorem start_service_cases_witness :
    start_service ⟨none, true, Except.ok 11⟩ ⟨none, false⟩ =
      (true, ⟨some ⟨11, none⟩, false⟩, [Event.spawn 11 true true]) :=
  (start_service_cases ⟨none, true, Except.ok 11⟩ ⟨none, false⟩).2.2.2 11 rfl rfl rfl

/-- C5: `shutdown()` always clears `running`; with a live handle it delivers
SIGTERM; it delivers SIGKILL only when the bounded `wait(timeout=10)` timed
out; and a second `shutdown()` immediately after the first neither errors
(it is a total function) nor signals the already-reaped process again, and
returns the exact state the first call produced. -/
theorem shutdown_idempotent (s : ManagerState) (i1 i2 : ShutdownInputs) :
    (shutdown i1 s).1.running = false ∧
    (∀ p, s.process = some p → p.returncode = none → i1.termOS = none →
      Event.sigterm p.pid ∈ (shutdown i1 s).2) ∧
    (∀ pid, Event.sigkill pid ∈ (shutdown i1 s).2 → i1.waitOS = none) ∧
    shutdown i2 (shutdown i1 s).1 = ((shutdown i1 s).1, [Event.shutdownEnter]) := by
  refine ⟨shutdown_running_false i1 s, ?_, ?_, ?_⟩
  · intro p hp hrc hterm
    have hsig : p.sendSignal i1.termOS = (p, true) := by
      obtain ⟨pp, prc⟩ := p
      simp only at hrc
      subst hrc
      simp [Proc.sendSignal, Proc.pollWith, hterm]
    cases hw : p.waitTimeout i1.waitOS with
    | ok p2 => simp [shutdown, hp, hsig, hw]
    | error u => simp [shutdown, hp, hsig, hw]
  · intro pid hmem
    cases hs : s.process with
    | none => simp [shutdown, hs] at hmem
    | some p =>
      cases hw : (p.sendSignal i1.termOS).1.waitTimeout i1.waitOS with
      | ok p2 =>
        simp only [shutdown, hs, hw, List.mem_cons] at hmem
        rcases hmem with h | h
        · exact absurd h (by simp)
        · split at h <;> simp at h
      | error u => exact (waitTimeout_error_iff _ _ _ hw).2
  · exact shutdown_on_settled i2 (shutdown i1 s).1 (shutdown_running_false i1 s)
      (shutdown_process_reaped i1 s)

/-- Witness for C5: a live pid 9 worker that ignores SIGTERM (the 10-second
wait times out) is SIGKILLed; the repeated `shutdown` leaves the state
untouched and delivers no further signal. -/
theorem shutdown_idempotent_witness :
    (shutdown ⟨none, none, none, 137⟩ (⟨some ⟨9, none⟩, true⟩ : ManagerState)).1.running
        = false ∧
    Event.sigterm 9 ∈ (shutdown ⟨none, none, none, 137⟩
        (⟨some ⟨9, none⟩, true⟩ : ManagerState)).2 ∧
    shutdown ⟨some 0, some 0, some 0, 0⟩
        (shutdown ⟨none, none, none, 137⟩ (⟨some ⟨9, none⟩, true⟩ : ManagerState)).1 =
      ((shutdown ⟨none, none, none, 137⟩ (⟨some ⟨9, none⟩, true⟩ : ManagerState)).1,
        [Event.shutdownEnter]) :=
  ⟨(shutdown_idempotent ⟨some ⟨9, none⟩, true⟩ ⟨none, none, none, 137⟩
      ⟨some 0, some 0, some 0, 0⟩).1,
    (shutdown_idempotent ⟨some ⟨9, none⟩, true⟩ ⟨none, none, none, 137⟩
      ⟨some 0, some 0, some 0, 0⟩).2.1 ⟨9, none⟩ rfl rfl rfl,
    (shutdown_idempotent ⟨some ⟨9, none⟩, true⟩ ⟨none, none, none, 137⟩
      ⟨some 0, some 0, some 0, 0⟩).2.2.2⟩

/-- C6: a failed restart is fatal to monitoring.  When an iteration's body
breaks out (`Except.ok false`, which by construction of `iterBody` happens
exactly when a dead or unhealthy worker was restarted and the restart's
`wait_for_startup` returned false), `monitor_service` returns that
iteration's state and trace immediately: no later iteration, hence no
further restart attempt, takes place however much fuel remains. -/
theorem failed_restart_stops_monitor (fuel : Nat) (inputs : Nat → IterInputs)
    (s s' : ManagerState) (ev : List Event)
    (hrun : s.running = true)
    (hiter : iterBody (inputs 0) s = (Except.ok false, s', ev)) :
    monitor_service (fuel + 1) inputs s = (s', ev) := by
  simp [monitor_service, hrun, hiter]

/-- Witness for C6: the worker (pid 5) is found dead, the relaunch fails for
a missing script and the startup wait fails at once on the dead poll; one
fuelled-up monitor loop stops after this single iteration. -/
theorem failed_restart_stops_monitor_witness :
    monitor_service 3 (fun _ => exhaustIter) (⟨some ⟨5, some 1⟩, true⟩ : ManagerState) =
      (⟨some ⟨5, some 1⟩, true⟩, [Event.probe]) :=
  failed_restart_stops_monitor 2 (fun _ => exhaustIter) ⟨some ⟨5, some 1⟩, true⟩
    ⟨some ⟨5, some 1⟩, true⟩ [Event.probe] rfl rfl

/-- C9: the monitor loop survives a bad iteration.  Whenever the body of one
iteration raises any exception other than an interrupt, `monitor_service`
catches it, sleeps the 5-second backoff, and continues with the next
iteration from the state at the raise point; `monitor_service` is a total
function into plain states and traces, so no such exception propagates out. -/
theorem monitor_survives_exception (fuel : Nat) (inputs : Nat → IterInputs)
    (s s' : ManagerState) (m : String) (ev : List Event)
    (hrun : s.running = true)
    (hiter : iterBody (inputs 0) s = (Except.error (PyExn.other m), s', ev)) :
    monitor_service (fuel + 1) inputs s =
      ((monitor_service fuel (fun n => inputs (n + 1)) s').1,
        ev ++ Event.sleep 5 :: (monitor_service fuel (fun n => inputs (n + 1)) s').2) := by
  simp [monitor_service, hrun, hiter]

/-- Witness for C9: the first poll of the monitor iteration raises a generic
exception; with one unit of fuel the loop logs it, sleeps 5 seconds and goes
round (fuel then runs out with the state intact). -/
theorem monitor_survives_exception_witness :
    monitor_service 1
        (fun _ => (⟨some (PyExn.other "boom"), none, HttpOutcome.exn, none,
          ⟨none, false, Except.error ()⟩, fun _ => badProbe, none⟩ : IterInputs))
        (⟨some ⟨3, none⟩, true⟩ : ManagerState) =
      (⟨some ⟨3, none⟩, true⟩, [Event.sleep 5]) :=
  monitor_survives_exception 0
    (fun _ => ⟨some (PyExn.other "boom"), none, HttpOutcome.exn, none,
      ⟨none, false, Except.error ()⟩, fun _ => badProbe, none⟩)
    ⟨some ⟨3, none⟩, true⟩ ⟨some ⟨3, none⟩, true⟩ "boom" [] rfl rfl

/-- C4: `wait_for_startup(max_wait)` probes `check_health` once per second
(the trace alternates probes and 1-second sleeps) for at most `max_wait`
attempts.  (a) If attempt `k` is the first healthy probe it returns true
after `k+1` probes and `k` sleeps, not waiting out the remaining attempts.
(b) If at attempt `k` the probe fails and the non-blocking poll reports the
process exited, it returns false in that same iteration (`k+1` probes, no
further waiting).  (c) If all `max_wait` attempts stay unhealthy with the
process alive, it returns false after exactly `max_wait` probes. -/
theorem wait_for_startup_spec (max_wait : Nat) (inputs : Nat → ProbeInput)
    (s : ManagerState) :
    (∀ k, k < max_wait → processQuiet s → (∀ j, j < k → quietProbe inputs j) →
      check_health (inputs k).health = true →
      (wait_for_startup max_wait inputs s).1 = Except.ok true ∧
        (wait_for_startup max_wait inputs s).2.2 = probeSleepTrace k ++ [Event.probe]) ∧
    (∀ k p rc, k < max_wait → s.process = some p → p.returncode = none →
      (∀ j, j < k → quietProbe inputs j) →
      check_health (inputs k).health = false → (inputs k).pollExn = none →
      (inputs k).pollOS = some rc →
      (wait_for_startup max_wait inputs s).1 = Except.ok false ∧
        (wait_for_startup max_wait inputs s).2.2 = probeSleepTrace k ++ [Event.probe]) ∧
    (processQuiet s → (∀ j, j < max_wait → quietProbe inputs j) →
      (wait_for_startup max_wait inputs s).1 = Except.ok false ∧
        (wait_for_startup max_wait inputs s).2.2 = probeSleepTrace max_wait) := by
  refine ⟨?_, ?_, ?_⟩
  · intro k hk hs hq hh
    exact waitLoop_first_healthy inputs k max_wait 0 s hk hs
      (fun j hj => by simpa using hq j hj) (by simpa using hh)
  · intro k p rc hk hp hr hq hu hpe hpo
    exact waitLoop_dead_exit inputs k max_wait 0 s p rc hk hp hr
      (fun j hj => by simpa using hq j hj) (by simpa using hu) (by simpa using hpe)
      (by simpa using hpo)
  · intro hs hq
    exact waitLoop_exhausted inputs max_wait 0 s hs (fun j hj => by simpa using hq j hj)

/-- Witness for C4, case (a): with no owned process and an immediately
healthy endpoint, a 5-attempt wait succeeds on the first probe with no
sleeps. -/
theorem wait_for_startup_spec_witness :
    (wait_for_startup 5 (fun _ => healthyProbe) (⟨none, false⟩ : ManagerState)).1 =
        Except.ok true ∧
      (wait_for_startup 5 (fun _ => healthyProbe) (⟨none, false⟩ : ManagerState)).2.2 =
        probeSleepTrace 0 ++ [Event.probe] :=
  (wait_for_startup_spec 5 (fun _ => healthyProbe) ⟨none, false⟩).1 0 (by decide)
    (fun p hp => Option.noConfusion hp) (fun j hj => absurd hj (Nat.not_lt_zero j)) rfl

/-- C7: `run()` returns a failure result without entering the monitor loop
when `start_service` fails, or when the initial `wait_for_startup` fails (the
result is then assembled from the start/wait phases and the final `shutdown`
alone — no monitor events occur); and on every exit path of `run` — normal
monitor exit, early startup failure, or an exception crossing the body —
the `finally:` executes `shutdown()` exactly once, witnessed by exactly one
`shutdownEnter` event in `run`'s trace. -/
theorem run_failure_paths_shutdown_once (inp : RunInputs) (s : ManagerState) :
    ((run inp s).2.2).count Event.shutdownEnter = 1 ∧
    ((startPhase inp s).1 = false →
      run inp s = (Except.ok false, (shutdown inp.shutdownIn (startPhase inp s).2.1).1,
        (startPhase inp s).2.2 ++ (shutdown inp.shutdownIn (startPhase inp s).2.1).2)) ∧
    ((startPhase inp s).1 = true → (waitPhase inp s).1 = Except.ok false →
      run inp s = (Except.ok false, (shutdown inp.shutdownIn (waitPhase inp s).2.1).1,
        (startPhase inp s).2.2 ++ (waitPhase inp s).2.2 ++
          (shutdown inp.shutdownIn (waitPhase inp s).2.1).2)) := by
  have c1 : ((startPhase inp s).2.2).count Event.shutdownEnter = 0 :=
    List.count_eq_zero.mpr (start_service_no_se _ _)
  have c2 : ((waitPhase inp s).2.2).count Event.shutdownEnter = 0 :=
    List.count_eq_zero.mpr (wait_for_startup_no_se _ _ _)
  have c3 : ((monitor_service inp.monitorFuel inp.monitor (waitPhase inp s).2.1).2).count
      Event.shutdownEnter = 0 :=
    List.count_eq_zero.mpr (monitor_no_se _ _ _)
  refine ⟨?_, fun h1 => by simp [run, h1], fun h1 h2 => by simp [run, h1, h2]⟩
  by_cases h1 : (startPhase inp s).1
  · rcases hw : (waitPhase inp s).1 with b | e
    · cases b <;>
        simp [run, h1, hw, List.count_append, c1, c2, c3, shutdown_count_se]
    · cases e <;>
        simp [run, h1, hw, List.count_append, c1, c2, c3, shutdown_count_se]
  · simp [run, h1, List.count_append, c1, shutdown_count_se]

/-- Witness for C7: a launch whose script is missing makes `run` fail before
monitoring, with the cleanup `shutdown` still executed (one `shutdownEnter`,
on an empty-handle state). -/
theorem run_failure_paths_shutdown_once_witness :
    run launchFailRun (⟨none, false⟩ : ManagerState) =
      (Except.ok false, (⟨none, false⟩ : ManagerState), [Event.shutdownEnter]) :=
  (run_failure_paths_shutdown_once launchFailRun ⟨none, false⟩).2.1 rfl

/-- C2 counterexample: a concrete restart-exhaustion run.  The launch
succeeds (pid 7) and the first startup probe is healthy, so monitoring is
entered in the recorded state; the monitor's first iteration finds the
worker dead and its restart fails (`iterBody` yields the `break` outcome
`ok false`), yet `run` returns the success result and `__main__` exits with
status 0 — not the non-zero exit the claim asserts for restart exhaustion. -/
theorem restart_exhaustion_exits_zero :
    (startPhase exhaustRun (⟨none, false⟩ : ManagerState)).1 = true ∧
    (waitPhase exhaustRun (⟨none, false⟩ : ManagerState)).1 = Except.ok true ∧
    (waitPhase exhaustRun (⟨none, false⟩ : ManagerState)).2.1 =
      (⟨some ⟨7, none⟩, true⟩ : ManagerState) ∧
    (iterBody (exhaustRun.monitor 0) (⟨some ⟨7, none⟩, true⟩ : ManagerState)).1 =
      Except.ok false ∧
    (run exhaustRun (⟨none, false⟩ : ManagerState)).1 = Except.ok true ∧
    mainExitCode exhaustRun (⟨none, false⟩ : ManagerState) = 0 :=
  ⟨rfl, rfl, rfl, rfl, rfl, rfl⟩

/-- C2 (amended): the supervisor process exits non-zero when the worker
could not be brought up — `run()` returns failure on a launch failure and on
an initial startup timeout; but once monitoring is entered `run()` returns
the success result whatever ends the loop, so a failing restart inside
monitoring (restart exhaustion) exits with status 0, not non-zero. -/
theorem run_exit_codes_amended (inp : RunInputs) (s : ManagerState) :
    ((startPhase inp s).1 = false →
      (run inp s).1 = Except.ok false ∧ mainExitCode inp s = 1) ∧
    ((startPhase inp s).1 = true → (waitPhase inp s).1 = Except.ok false →
      (run inp s).1 = Except.ok false ∧ mainExitCode inp s = 1) ∧
    ((startPhase inp s).1 = true → (waitPhase inp s).1 = Except.ok true →
      (run inp s).1 = Except.ok true ∧ mainExitCode inp s = 0) := by
  refine ⟨fun h1 => ?_, fun h1 h2 => ?_, fun h1 h2 => ?_⟩
  · constructor <;> simp [run, mainExitCode, h1]
  · constructor <;> simp [run, mainExitCode, h1, h2]
  · constructor <;> simp [run, mainExitCode, h1, h2]

/-- Witness for the amended C2: the missing-script launch makes `run` return
the failure result and the process exit with status 1. -/
theorem run_exit_codes_amended_witness :
    (run launchFailRun (⟨none, false⟩ : ManagerState)).1 = Except.ok false ∧
      mainExitCode launchFailRun (⟨none, false⟩ : ManagerState) = 1 :=
  (run_exit_codes_amended launchFailRun ⟨none, false⟩).1 rfl

end SvcMgr
